import Mathlib

/-!
Verification of the Ploy rule engine.

This file gives a shallow embedding of the game logic of the Ploy
repository and proves or refutes the specification claims about it.

Two implementations coexist in the repository and both are embedded here:

* the current engine in src/game_state.py (class GameState together with
  the constant tables of src/pieces.py), embedded at top level below;
* the legacy engine in src/backup/ploy_game.py (class PloyGame), whose
  move computation and wheel rotation are the only implementations of
  those rules in the repository, embedded in namespace Backup.

Python runtime behaviour is modelled explicitly: statements that can
raise are functions into Except PyErr, and because Python mutates the
object in place even when an exception later propagates, every stateful
method returns the state as it stands at the moment of normal return or
of the raise.  List subscription follows Python semantics: a negative
index wraps by the list length once, and an index that is still out of
range raises IndexError.
-/

namespace Ploy

/-- The Python exceptions that the embedded code can raise. -/
inductive PyErr where
  | IndexError
  | AttributeError
  | KeyError
deriving DecidableEq, Repr

/-- Python list subscription xs[i]: a negative index has the length added
once; a resulting index outside the range raises IndexError. -/
def pyGet {α : Type} (xs : List α) (i : Int) : Except PyErr α :=
  let j : Int := if i < 0 then i + xs.length else i
  if 0 ≤ j then
    match xs.get? j.toNat with
    | some a => Except.ok a
    | none => Except.error PyErr.IndexError
  else Except.error PyErr.IndexError

/-- Python list item assignment xs[i] = a, same index semantics as pyGet. -/
def pySet {α : Type} (xs : List α) (i : Int) (a : α) : Except PyErr (List α) :=
  let j : Int := if i < 0 then i + xs.length else i
  if 0 ≤ j then
    if j.toNat < xs.length then Except.ok (xs.set j.toNat a)
    else Except.error PyErr.IndexError
  else Except.error PyErr.IndexError

/-- The eight compass orientations of pieces.py (list DIRECTIONS). -/
inductive Orientation where
  | N | NE | E | SE | S | SW | W | NW
deriving DecidableEq, BEq, Repr

/-- The four piece types of pieces.py (keys of dict PIECE_TYPES). -/
inductive PieceType where
  | Commander | Lance | Probe | Shield
deriving DecidableEq, BEq, Repr

/-- The seats of game_state.py (keys of GameState.players). -/
inductive Position where
  | bottom | top | left | right
deriving DecidableEq, BEq, Repr

/-- pieces.py: BOARD_SIZE = 9. -/
def BOARD_SIZE : Nat := 9

/-- pieces.py: PIECE_TYPES, maximum movement steps per type. -/
def PIECE_TYPES : PieceType → Nat
  | PieceType.Commander => 1
  | PieceType.Lance => 3
  | PieceType.Probe => 2
  | PieceType.Shield => 1

/-- pieces.py: DIRECTIONS, the cyclic clockwise order of orientations. -/
def DIRECTIONS : List Orientation :=
  [Orientation.N, Orientation.NE, Orientation.E, Orientation.SE,
   Orientation.S, Orientation.SW, Orientation.W, Orientation.NW]

/-- pieces.py: DIRECTION_VECTORS, (row_increment, column_increment). -/
def DIRECTION_VECTORS : Orientation → Int × Int
  | Orientation.N => (-1, 0)
  | Orientation.NE => (-1, 1)
  | Orientation.E => (0, 1)
  | Orientation.SE => (1, 1)
  | Orientation.S => (1, 0)
  | Orientation.SW => (1, -1)
  | Orientation.W => (0, -1)
  | Orientation.NW => (-1, -1)

/-- The piece dictionaries that game_state.py stores in board cells
(fields of the dict literal built in GameState.place_piece). -/
structure Piece where
  type : PieceType
  color : String
  orientation : Orientation
  position : Position
deriving DecidableEq, Repr

/-- game_state.py class Player. -/
structure Player where
  name : String
  color : String
  is_ai : Bool
  captured_pieces : List Piece
deriving DecidableEq, Repr

/-- The GameState.players dict: bottom and top always exist, left and
right only in 4-player mode. -/
structure Players where
  bottom : Player
  top : Player
  left : Option Player
  right : Option Player
deriving DecidableEq, Repr

/-- Dict access self.players[position]; a missing key raises KeyError. -/
def Players.lookup (ps : Players) : Position → Except PyErr Player
  | Position.bottom => Except.ok ps.bottom
  | Position.top => Except.ok ps.top
  | Position.left =>
      match ps.left with
      | some p => Except.ok p
      | none => Except.error PyErr.KeyError
  | Position.right =>
      match ps.right with
      | some p => Except.ok p
      | none => Except.error PyErr.KeyError

/-- The loop in GameState.initialize_board that sets
player.captured_pieces = [] for every player in self.players.values(). -/
def Players.clearCaptures (ps : Players) : Players :=
  { bottom := { ps.bottom with captured_pieces := [] }
    top := { ps.top with captured_pieces := [] }
    left := ps.left.map (fun p => { p with captured_pieces := [] })
    right := ps.right.map (fun p => { p with captured_pieces := [] }) }

/-- self.players[pos].captured_pieces.append(t) in GameState.move_piece. -/
def Players.appendCaptured (ps : Players) (pos : Position) (t : Piece) : Players :=
  match pos with
  | Position.bottom =>
      { ps with bottom := { ps.bottom with
          captured_pieces := ps.bottom.captured_pieces ++ [t] } }
  | Position.top =>
      { ps with top := { ps.top with
          captured_pieces := ps.top.captured_pieces ++ [t] } }
  | Position.left =>
      { ps with left := ps.left.map (fun p =>
          { p with captured_pieces := p.captured_pieces ++ [t] }) }
  | Position.right =>
      { ps with right := ps.right.map (fun p =>
          { p with captured_pieces := p.captured_pieces ++ [t] }) }

/-- game_state.py class GameState (rule-engine fields; the logger object
is omitted: it is write-only observability and, as proved below, no
logging call in GameState ever reaches it). -/
structure GameState where
  board : List (List (Option Piece))
  last_action : Option String
  is_bottom_on_top : Bool
  game_mode : String
  players : Players
  current_player_position : Position
deriving DecidableEq, Repr

/-- The 9 x 9 all-None grid built by the list comprehension in
GameState.__init__ and GameState.initialize_board. -/
def empty_board : List (List (Option Piece)) :=
  List.replicate BOARD_SIZE (List.replicate BOARD_SIZE (none : Option Piece))

/-- GameState.__init__(logger, game_mode): default players, empty grid. -/
def GameState.init (game_mode : String) : GameState :=
  { board := empty_board
    last_action := none
    is_bottom_on_top := false
    game_mode := game_mode
    players :=
      { bottom := { name := "Player 1", color := "#32CD32",
                    is_ai := false, captured_pieces := [] }
        top := { name := "Player 2", color := "#FFA500",
                 is_ai := false, captured_pieces := [] }
        left := if game_mode == "4player"
          then some { name := "Player 3", color := "#4169E1",
                      is_ai := false, captured_pieces := [] }
          else none
        right := if game_mode == "4player"
          then some { name := "Player 4", color := "#DC143C",
                      is_ai := false, captured_pieces := [] }
          else none }
    current_player_position := Position.bottom }

/-- The attribute access self.log_debug on a GameState: class GameState
defines no method or attribute named log_debug (its DebugLogger lives in
self.logger and is never consulted under this name, and no code in the
repository ever assigns this attribute), so the lookup raises
AttributeError and the state is returned as it stood. -/
def log_debug (s : GameState) (_msg : String) : Except PyErr Unit × GameState :=
  (Except.error PyErr.AttributeError, s)

/-- The attribute access self.is_valid_move in GameState.move_piece:
class GameState defines no such method anywhere in the repository, so
the lookup raises AttributeError before the call could happen. -/
def is_valid_move : Except PyErr (Int → Int → Int → Int → Bool) :=
  Except.error PyErr.AttributeError

/-- Sequencing of Python statements: a raised exception propagates,
keeping the state at the point of the raise. -/
def seqS (r : Except PyErr Unit × GameState)
    (k : GameState → Except PyErr Unit × GameState) :
    Except PyErr Unit × GameState :=
  match r with
  | (Except.error e, s) => (Except.error e, s)
  | (Except.ok _, s) => k s

/-- The subscription self.board[row][col]. -/
def boardGet (b : List (List (Option Piece))) (row col : Int) :
    Except PyErr (Option Piece) :=
  match pyGet b row with
  | Except.error e => Except.error e
  | Except.ok r => pyGet r col

/-- The assignment self.board[row][col] = v (the row list is mutated in
place, so the board sees the update). -/
def boardSet (b : List (List (Option Piece))) (row col : Int) (v : Option Piece) :
    Except PyErr (List (List (Option Piece))) :=
  match pyGet b row with
  | Except.error e => Except.error e
  | Except.ok r =>
      match pySet r col v with
      | Except.error e => Except.error e
      | Except.ok newRow => pySet b row newRow

/-- GameState.get_piece_orientation: the orientation_map dict literal. -/
def orientation_map : Orientation → Orientation
  | Orientation.N => Orientation.S
  | Orientation.S => Orientation.N
  | Orientation.E => Orientation.W
  | Orientation.W => Orientation.E
  | Orientation.NE => Orientation.SW
  | Orientation.SW => Orientation.NE
  | Orientation.NW => Orientation.SE
  | Orientation.SE => Orientation.NW

/-- GameState.get_piece_orientation(base_orientation, position). -/
def get_piece_orientation (s : GameState) (base : Orientation)
    (position : Position) : Orientation :=
  let needs_flip : Bool :=
    (s.is_bottom_on_top && position == Position.bottom) ||
    (!s.is_bottom_on_top && position == Position.top) ||
    ((position == Position.left || position == Position.right) &&
      s.game_mode == "4player")
  if needs_flip then orientation_map base else base

/-- GameState.place_piece(row, col, position, piece_type, orientation):
players dict lookup, cell assignment, then the log_debug call (which
raises AttributeError after the cell has already been written). -/
def place_piece (s : GameState) (row col : Int) (position : Position)
    (piece_type : PieceType) (orient : Orientation) :
    Except PyErr Unit × GameState :=
  match s.players.lookup position with
  | Except.error e => (Except.error e, s)
  | Except.ok player =>
      match boardSet s.board row col
          (some { type := piece_type, color := player.color,
                  orientation := orient, position := position }) with
      | Except.error e => (Except.error e, s)
      | Except.ok b => log_debug { s with board := b } "Placed piece."

/-- GameState._place_player_pieces(position, base_row): Commander at
column 4, Shields one row forward at columns 2,4,6, Probes at columns
1,3,5,7, Lances at columns 0 and 8 (the range loops unrolled). -/
def _place_player_pieces (s : GameState) (position : Position)
    (base_row : Int) : Except PyErr Unit × GameState :=
  let direction : Orientation :=
    if position == Position.bottom then Orientation.S else Orientation.N
  let row_modifier : Int :=
    (if position == Position.bottom then 1 else -1) *
      (if s.is_bottom_on_top then -1 else 1)
  seqS (place_piece s base_row 4 position PieceType.Commander
      (get_piece_orientation s direction position)) (fun s =>
  let shield_row := base_row + row_modifier
  seqS (place_piece s shield_row 2 position PieceType.Shield
      (get_piece_orientation s direction position)) (fun s =>
  seqS (place_piece s shield_row 4 position PieceType.Shield
      (get_piece_orientation s direction position)) (fun s =>
  seqS (place_piece s shield_row 6 position PieceType.Shield
      (get_piece_orientation s direction position)) (fun s =>
  seqS (place_piece s base_row 1 position PieceType.Probe
      (get_piece_orientation s direction position)) (fun s =>
  seqS (place_piece s base_row 3 position PieceType.Probe
      (get_piece_orientation s direction position)) (fun s =>
  seqS (place_piece s base_row 5 position PieceType.Probe
      (get_piece_orientation s direction position)) (fun s =>
  seqS (place_piece s base_row 7 position PieceType.Probe
      (get_piece_orientation s direction position)) (fun s =>
  seqS (place_piece s base_row 0 position PieceType.Lance
      (get_piece_orientation s direction position)) (fun s =>
  place_piece s base_row 8 position PieceType.Lance
      (get_piece_orientation s direction position))))))))))

/-- GameState._place_side_player_pieces: the body is pass. -/
def _place_side_player_pieces (s : GameState) : Except PyErr Unit × GameState :=
  (Except.ok (), s)

/-- GameState.initialize_board: fresh grid, capture lists cleared, then
the unconditional self.log_debug call (raising AttributeError), then the
never-reached placement of both formations. -/
def initialize_board (s : GameState) : Except PyErr Unit × GameState :=
  let s : GameState :=
    { s with board := empty_board, players := s.players.clearCaptures }
  seqS (log_debug s "Setting up initial board state...") (fun s =>
    let bottom_base : Int := if s.is_bottom_on_top then 8 else 0
    let top_base : Int := if s.is_bottom_on_top then 0 else 8
    seqS (_place_player_pieces s Position.bottom bottom_base) (fun s =>
    seqS (_place_player_pieces s Position.top top_base) (fun s =>
      if s.game_mode == "4player" then _place_side_player_pieces s
      else (Except.ok (), s))))

/-- GameState.flip_board_orientation: toggle is_bottom_on_top, call
initialize_board, then read players["bottom"].name and log. -/
def flip_board_orientation (s : GameState) : Except PyErr Unit × GameState :=
  let s : GameState := { s with is_bottom_on_top := !s.is_bottom_on_top }
  seqS (initialize_board s) (fun s =>
    let _bottom_player := s.players.bottom.name
    log_debug s "Board flipped.")

/-- GameState.move_piece(from_row, from_col, to_row, to_col).  The code
after the self.is_valid_move attribute access is unreachable (the lookup
raises AttributeError); it is embedded here nonetheless, parameterised
over the function value that the lookup would have produced. -/
def move_piece (s : GameState) (from_row from_col to_row to_col : Int) :
    Except PyErr Bool × GameState :=
  match boardGet s.board from_row from_col with
  | Except.error e => (Except.error e, s)
  | Except.ok cell =>
      match cell with
      | none => (Except.ok false, s)
      | some piece =>
          if piece.position ≠ s.current_player_position then
            (Except.ok false, s)
          else
            match is_valid_move with
            | Except.error e => (Except.error e, s)
            | Except.ok valid =>
                if !(valid from_row from_col to_row to_col) then
                  (Except.ok false, s)
                else
                  match boardGet s.board to_row to_col with
                  | Except.error e => (Except.error e, s)
                  | Except.ok target =>
                      let afterCapture : Except PyErr Unit × GameState :=
                        match target with
                        | some t =>
                            match s.players.lookup piece.position with
                            | Except.error e => (Except.error e, s)
                            | Except.ok _ =>
                                log_debug { s with players :=
                                    s.players.appendCaptured piece.position t }
                                  "Capturing piece."
                        | none => (Except.ok (), s)
                      match afterCapture with
                      | (Except.error e, s) => (Except.error e, s)
                      | (Except.ok _, s) =>
                          match boardSet s.board to_row to_col (some piece) with
                          | Except.error e => (Except.error e, s)
                          | Except.ok b =>
                              match boardSet b from_row from_col none with
                              | Except.error e =>
                                  (Except.error e, { s with board := b })
                              | Except.ok b2 =>
                                  let s : GameState :=
                                    { s with
                                        board := b2
                                        last_action := some "move" }
                                  match log_debug s "Moving piece." with
                                  | (Except.error e, s) => (Except.error e, s)
                                  | (Except.ok _, s) => (Except.ok true, s)

/-- GameState.end_turn. -/
def end_turn (s : GameState) : Except PyErr Unit × GameState :=
  let s : GameState :=
    if s.game_mode == "2player" then
      { s with current_player_position :=
          if s.current_player_position == Position.bottom then Position.top
          else Position.bottom }
    else
      let next : Position :=
        match s.current_player_position with
        | Position.bottom => Position.right
        | Position.right => Position.top
        | Position.top => Position.left
        | Position.left => Position.bottom
      { s with current_player_position := next }
  let s : GameState := { s with last_action := none }
  log_debug s "Turn passed."

namespace Backup

/-- src/backup/ploy_game.py: the piece dictionaries stored in
board_state[row][col]["piece"].  The Qt graphics handles (item,
direction_indicator) are display-only and carry no rule state; they are
omitted from the embedding. -/
structure BPiece where
  type : PieceType
  color : String
  row : Int
  col : Int
  orientation : Orientation
deriving DecidableEq, Repr

/-- The rule-relevant view of PloyGame.board_state: the piece field of
each cell (position pixels, label and ellipse are display-only).  The
code only ever reads cells after an explicit bounds check, so a total
function over integer coordinates is a faithful carrier. -/
def BBoard : Type := Int → Int → Option BPiece

/-- backup/ploy_game.py: PIECE_TYPES. -/
def PIECE_TYPES : PieceType → Nat
  | PieceType.Commander => 1
  | PieceType.Lance => 3
  | PieceType.Probe => 2
  | PieceType.Shield => 1

/-- backup/ploy_game.py: DIRECTIONS, same cyclic order as pieces.py. -/
def DIRECTIONS : List Orientation :=
  [Orientation.N, Orientation.NE, Orientation.E, Orientation.SE,
   Orientation.S, Orientation.SW, Orientation.W, Orientation.NW]

/-- backup/ploy_game.py: DIRECTION_VECTORS.  Unlike pieces.py these are
(x, y) pairs: the code uses vector[1] as the row step and vector[0] as
the column step. -/
def DIRECTION_VECTORS : Orientation → Int × Int
  | Orientation.N => (0, -1)
  | Orientation.NE => (1, -1)
  | Orientation.E => (1, 0)
  | Orientation.SE => (1, 1)
  | Orientation.S => (0, 1)
  | Orientation.SW => (-1, 1)
  | Orientation.W => (-1, 0)
  | Orientation.NW => (-1, -1)

/-- The bounds test 0 <= new_row < BOARD_SIZE and 0 <= new_col <
BOARD_SIZE in PloyGame.highlight_valid_moves. -/
def inB (r c : Int) : Prop :=
  0 ≤ r ∧ r < 9 ∧ 0 ≤ c ∧ c < 9

instance (r c : Int) : Decidable (inB r c) := by
  unfold inB; infer_instance

/-- The loop for step in range(1, max_steps + 1) of
PloyGame.highlight_valid_moves: step is the current loop counter, the
second argument the number of iterations left.  Each iteration computes
the target cell from the ORIGINAL row and col, breaks on an off-board
cell, stops at the first occupied cell (appending it only when it holds
an enemy piece), and appends-and-continues on an empty cell. -/
def validMovesFrom (board : BBoard) (pcolor : String) (row col : Int)
    (vec : Int × Int) : Nat → Nat → List (Int × Int)
  | _, 0 => []
  | step, n + 1 =>
    let new_row : Int := row + (step : Int) * vec.2
    let new_col : Int := col + (step : Int) * vec.1
    if inB new_row new_col then
      match board new_row new_col with
      | some q =>
          if q.color ≠ pcolor then [(new_row, new_col)] else []
      | none =>
          (new_row, new_col) ::
            validMovesFrom board pcolor row col vec (step + 1) n
    else []

/-- The valid-move computation of PloyGame.highlight_valid_moves for a
selected piece (the highlighting side effects are display-only). -/
def highlight_valid_moves (board : BBoard) (p : BPiece) : List (Int × Int) :=
  validMovesFrom board p.color p.row p.col
    (DIRECTION_VECTORS p.orientation) 1 (PIECE_TYPES p.type)

/-- The new orientation computed by PloyGame.wheelEvent: index of the
current orientation in DIRECTIONS, plus or minus one modulo the list
length depending on the scroll direction (Python % is nonnegative here,
as is Int emod).  The getD default is unreachable: the index is always
in range. -/
def wheelRotate (current : Orientation) (delta : Int) : Orientation :=
  let current_index : Int := (DIRECTIONS.indexOf current : Nat)
  let new_index : Int :=
    if delta > 0 then (current_index + 1) % (DIRECTIONS.length : Int)
    else (current_index - 1) % (DIRECTIONS.length : Int)
  (DIRECTIONS.get? new_index.toNat).getD Orientation.N

/-- PloyGame.wheelEvent on a selected piece: unconditionally stores the
stepped orientation back into the piece, for every piece type. -/
def wheelEvent (p : BPiece) (delta : Int) : BPiece :=
  { p with orientation := wheelRotate p.orientation delta }

/-- Stated from the spec: the clockwise successor in the cyclic order
N, NE, E, SE, S, SW, W, NW. -/
def clockwiseNext : Orientation → Orientation
  | Orientation.N => Orientation.NE
  | Orientation.NE => Orientation.E
  | Orientation.E => Orientation.SE
  | Orientation.SE => Orientation.S
  | Orientation.S => Orientation.SW
  | Orientation.SW => Orientation.W
  | Orientation.W => Orientation.NW
  | Orientation.NW => Orientation.N

/-- Stated from the spec: the counterclockwise predecessor in the same
cyclic order. -/
def clockwisePrev : Orientation → Orientation
  | Orientation.N => Orientation.NW
  | Orientation.NE => Orientation.N
  | Orientation.E => Orientation.NE
  | Orientation.SE => Orientation.E
  | Orientation.S => Orientation.SE
  | Orientation.SW => Orientation.S
  | Orientation.W => Orientation.SW
  | Orientation.NW => Orientation.W

/-- The diagonal orientations (spec section 4.4: the complement of the
cardinal set N, E, S, W). -/
def isDiagonal : Orientation → Bool
  | Orientation.NE => true
  | Orientation.SE => true
  | Orientation.SW => true
  | Orientation.NW => true
  | _ => false

/-- The position of the k-th step of the walk from (row, col) along a
direction vector (x, y): row advances by y, column by x. -/
def stepPos (row col : Int) (vec : Int × Int) (k : Nat) : Int × Int :=
  (row + (k : Int) * vec.2, col + (k : Int) * vec.1)

/-- A board with no pieces. -/
def emptyBB : BBoard := fun _ _ => none

/-- A green Commander at (4,4) facing N, as after selection. -/
def cmdN : BPiece :=
  { type := PieceType.Commander, color := "green",
    row := 4, col := 4, orientation := Orientation.N }

/-- A green Commander at (4,4) facing the diagonal NE. -/
def cmdNE : BPiece :=
  { type := PieceType.Commander, color := "green",
    row := 4, col := 4, orientation := Orientation.NE }

/-- A green Lance at (4,4) facing N. -/
def lanceN : BPiece :=
  { type := PieceType.Lance, color := "green",
    row := 4, col := 4, orientation := Orientation.N }

end Backup

/-- A bottom-seat Lance at (0,4) facing S, in the colors that
GameState.__init__ assigns to the bottom player. -/
def lance04 : Piece :=
  { type := PieceType.Lance, color := "#32CD32",
    orientation := Orientation.S, position := Position.bottom }

/-- A top-seat Probe, used as a concrete captured piece. -/
def capturedProbe : Piece :=
  { type := PieceType.Probe, color := "#FFA500",
    orientation := Orientation.N, position := Position.top }

/-- A bottom-seat Probe at (4,4) facing S. -/
def probe44 : Piece :=
  { type := PieceType.Probe, color := "#32CD32",
    orientation := Orientation.S, position := Position.bottom }

/-- A top-seat Lance at (5,4), an enemy piece on the destination cell. -/
def lanceTop54 : Piece :=
  { type := PieceType.Lance, color := "#FFA500",
    orientation := Orientation.N, position := Position.top }

/-- One all-empty row of the grid. -/
def emptyRow : List (Option Piece) := List.replicate BOARD_SIZE none

/-- A fresh 2-player GameState as built by GameState.__init__. -/
def gs0 : GameState := GameState.init "2player"

/-- gs0 after the bottom seat has captured one piece. -/
def gs1 : GameState :=
  { gs0 with players :=
      { gs0.players with bottom :=
          { gs0.players.bottom with captured_pieces := [capturedProbe] } } }

/-- gs0 with a bottom Lance standing at (0,4). -/
def gs2 : GameState :=
  { gs0 with board := empty_board.set 0 (emptyRow.set 4 (some lance04)) }

/-- A grid with a bottom Probe at (4,4) and an enemy Lance at (5,4). -/
def boardCapture : List (List (Option Piece)) :=
  (empty_board.set 4 (emptyRow.set 4 (some probe44))).set 5
    (emptyRow.set 4 (some lanceTop54))

/-- gs0 with a bottom Probe at (4,4) and an enemy Lance at (5,4): a
capture attempt by the active seat is move_piece 4 4 5 4. -/
def gs3 : GameState :=
  { gs0 with board := boardCapture }

/-- Well-formedness of a board value: the 9 x 9 shape that every board
built by the Python code has. -/
def boardWF (b : List (List (Option Piece))) : Prop :=
  b.length = 9 ∧ ∀ r ∈ b, r.length = 9

instance (b : List (List (Option Piece))) : Decidable (boardWF b) := by
  unfold boardWF; infer_instance

/-- Every cell of a board is empty. -/
def boardAllEmpty (b : List (List (Option Piece))) : Bool :=
  b.all (fun r => r.all (fun cell => cell == none))

/-- The piece that _place_player_pieces would put at (8,4) for the top
seat of an unflipped 2-player game: a Commander facing S, off the board
edge. -/
def topCmd : Piece :=
  { type := PieceType.Commander, color := "#FFA500",
    orientation := Orientation.S, position := Position.top }

/-- A green Lance at (0,0) facing S in the legacy engine (the Lance
walk example of spec section 8). -/
def lanceS00 : Backup.BPiece :=
  { type := PieceType.Lance, color := "green",
    row := 0, col := 0, orientation := Orientation.S }

/-- A successful pyGet: a nonnegative index below the length reads the
corresponding element. -/
theorem pyGet_ok {α : Type} (xs : List α) (i : Int) (h0 : 0 ≤ i)
    (h1 : i < xs.length) : ∃ a, pyGet xs i = Except.ok a := by
  have hnotneg : ¬ i < 0 := by omega
  have hlt : i.toNat < xs.length := by omega
  refine ⟨xs.get ⟨i.toNat, hlt⟩, ?_⟩
  simp only [pyGet, if_neg hnotneg, if_pos h0, List.get?_eq_get hlt]

/-- Reading any in-range cell of a well-formed board succeeds. -/
theorem boardGet_ok_of_wf (b : List (List (Option Piece))) (r c : Int)
    (hwf : boardWF b) (h0 : 0 ≤ r) (h1 : r < 9) (h2 : 0 ≤ c) (h3 : c < 9) :
    ∃ cell, boardGet b r c = Except.ok cell := by
  obtain ⟨hlen, hrows⟩ := hwf
  obtain ⟨rowL, hrow⟩ := pyGet_ok b r h0 (by omega)
  have hmem : rowL ∈ b := by
    unfold pyGet at hrow
    have hnotneg : ¬ r < 0 := by omega
    simp only [hnotneg, if_false, if_pos h0] at hrow
    cases hq : b.get? r.toNat with
    | none => rw [hq] at hrow; exact absurd hrow (by simp)
    | some a =>
        rw [hq] at hrow
        simp only [Except.ok.injEq] at hrow
        subst hrow
        exact List.get?_mem hq
  have hrl : rowL.length = 9 := hrows rowL hmem
  obtain ⟨cell, hcell⟩ := pyGet_ok rowL c h2 (by omega)
  exact ⟨cell, by unfold boardGet; rw [hrow]; exact hcell⟩

/-- Claim C1: initialize_board never completes normally: it resets the
grid to all-empty, clears every seat's captured_pieces list, then calls
self.log_debug, which GameState does not define, so for every game mode
and every state it raises AttributeError and leaves every cell empty; the
same holds for flip_board_orientation, which invokes it after toggling
is_bottom_on_top. -/
theorem c1_initialize_board_always_raises (s : GameState) :
    initialize_board s =
      (Except.error PyErr.AttributeError,
        { s with board := empty_board, players := s.players.clearCaptures }) ∧
    flip_board_orientation s =
      (Except.error PyErr.AttributeError,
        { s with
            is_bottom_on_top := !s.is_bottom_on_top
            board := empty_board
            players := s.players.clearCaptures }) ∧
    boardAllEmpty empty_board = true :=
  ⟨rfl, rfl, rfl⟩

/-- Claim C2 (code bug): evaluation at the failing input: calling
move_piece with from_row = 9 (outside the 0..8 range) on a fresh-shaped
state raises IndexError instead of returning a failure signal, and an
out-of-range from_col does the same. -/
theorem c2_out_of_range_raises :
    move_piece gs2 9 0 0 0 = (Except.error PyErr.IndexError, gs2) ∧
    move_piece gs2 0 9 0 0 = (Except.error PyErr.IndexError, gs2) :=
  ⟨rfl, rfl⟩

/-- Claim C4 (counterexample): a state whose bottom seat has one captured
piece; flip_board_orientation clears that list, so the capture list after
the call differs from the list before it. -/
theorem c4_flip_clears_captures_cex :
    gs1.players.bottom.captured_pieces = [capturedProbe] ∧
    (flip_board_orientation gs1).2.players.bottom.captured_pieces ≠
      gs1.players.bottom.captured_pieces :=
  ⟨rfl, by decide⟩

/-- Claim C4 (amended): flip_board_orientation clears every seat's
captured-piece list (it re-runs initialize_board, which resets them all
to empty before raising AttributeError); the lists are preserved only
when they were already empty. -/
theorem c4_flip_clears_captures (s : GameState) :
    (flip_board_orientation s).1 = Except.error PyErr.AttributeError ∧
    (flip_board_orientation s).2.players = s.players.clearCaptures ∧
    (flip_board_orientation s).2.is_bottom_on_top = !s.is_bottom_on_top :=
  ⟨rfl, rfl, rfl⟩

/-- Claim C5 (counterexample): a state with a piece at (0,4); after
flip_board_orientation the point-reflected cell (8,4) is empty (as is
the whole board), so the call is not a permutation of occupied cells. -/
theorem c5_flip_not_permutation_cex :
    boardGet gs2.board 0 4 = Except.ok (some lance04) ∧
    boardGet (flip_board_orientation gs2).2.board 8 4 = Except.ok none ∧
    (flip_board_orientation gs2).2.is_bottom_on_top = true :=
  ⟨rfl, rfl, rfl⟩

/-- Claim C5 (amended): flip_board_orientation toggles is_bottom_on_top
but performs no point-reflection: it re-initializes, which empties the
grid and raises AttributeError before any piece is placed, so every cell
is empty afterwards and no piece is repositioned. -/
theorem c5_flip_empties_board (s : GameState) :
    (flip_board_orientation s).2.board = empty_board ∧
    (flip_board_orientation s).2.is_bottom_on_top = !s.is_bottom_on_top ∧
    (flip_board_orientation s).1 = Except.error PyErr.AttributeError ∧
    boardAllEmpty empty_board = true :=
  ⟨rfl, rfl, rfl, rfl⟩

/-- Claim C7 (code bug): evaluation at the failing input: on a fresh
2-player state with is_bottom_on_top false, initialize_board raises
AttributeError with the board left entirely empty (no formation is
placed); moreover the placement helpers, run in isolation, would give
top-seat pieces orientation S (pointing off the board), not N, because
get_piece_orientation flips the top seat exactly when is_bottom_on_top
is false: the would-be top Commander at (8,4) faces S. -/
theorem c7_no_starting_formation :
    (initialize_board gs0).1 = Except.error PyErr.AttributeError ∧
    boardAllEmpty (initialize_board gs0).2.board = true ∧
    get_piece_orientation gs0 Orientation.N Position.top = Orientation.S ∧
    get_piece_orientation gs0 Orientation.S Position.bottom = Orientation.S ∧
    boardGet (_place_player_pieces gs0 Position.top 8).2.board 8 4 =
      Except.ok (some topCmd) :=
  ⟨rfl, rfl, rfl, rfl, rfl⟩

/-- Claim C8 (counterexample): wheelEvent applies no Commander
restriction: one clockwise step on a Commander facing N succeeds and
stores the diagonal orientation NE (a state change, not a failure), and
a Commander whose stored orientation is the diagonal NE still yields a
move on an open board. -/
theorem c8_commander_diagonal_cex :
    Backup.wheelEvent Backup.cmdN 120 = Backup.cmdNE ∧
    Backup.isDiagonal Backup.cmdNE.orientation = true ∧
    Backup.highlight_valid_moves Backup.emptyBB Backup.cmdNE = [(3, 5)] :=
  ⟨rfl, rfl, by decide⟩

/-- One clockwise wheel step agrees with the cyclic successor table. -/
theorem Backup.wheelRotate_cw (o : Orientation) :
    Backup.wheelRotate o 120 = Backup.clockwiseNext o := by
  cases o <;> rfl

/-- One counterclockwise wheel step agrees with the cyclic predecessor
table. -/
theorem Backup.wheelRotate_ccw (o : Orientation) :
    Backup.wheelRotate o (-120) = Backup.clockwisePrev o := by
  cases o <;> rfl

/-- Claim C8 (amended): wheelEvent steps any selected piece, Commanders
included, one position through the fixed 8-direction cycle (clockwise on
scroll up, counterclockwise otherwise) with no cardinal restriction, so
a Commander can reach and hold a diagonal orientation, and a
diagonal-facing Commander yields moves by the same walk as any piece. -/
theorem c8_wheel_unrestricted (p : Backup.BPiece) :
    Backup.wheelEvent p 120 =
      { p with orientation := Backup.clockwiseNext p.orientation } ∧
    Backup.wheelEvent p (-120) =
      { p with orientation := Backup.clockwisePrev p.orientation } ∧
    Backup.highlight_valid_moves Backup.emptyBB Backup.cmdNE = [(3, 5)] := by
  refine ⟨?_, ?_, by decide⟩
  · unfold Backup.wheelEvent
    rw [Backup.wheelRotate_cw]
  · unfold Backup.wheelEvent
    rw [Backup.wheelRotate_ccw]

/-- Claim C9 (counterexample): a non-Shield piece (a Lance) that has just
been rotated by wheelEvent still yields its full walk of destinations:
the legacy engine keeps no last-action state at all, so the rotation
cannot make getValidMoves empty. -/
theorem c9_rotated_lance_still_moves_cex :
    (Backup.wheelEvent Backup.lanceN 120).type ≠ PieceType.Shield ∧
    Backup.highlight_valid_moves Backup.emptyBB
      (Backup.wheelEvent Backup.lanceN 120) = [(3, 5), (2, 6), (1, 7)] :=
  ⟨by decide, by decide⟩

/-- Claim C3: for all in-range coordinates and every (well-shaped)
state, move_piece returns False when the source cell is empty or holds a
piece whose owner is not the active seat, and raises AttributeError
(GameState defines no is_valid_move method) whenever the source piece
does belong to the active seat; and for every state and all arguments it
never returns True. -/
theorem c3_move_piece_never_true (s : GameState) (fr fc tr tc : Int) :
    (move_piece s fr fc tr tc).1 ≠ Except.ok true ∧
    (0 ≤ fr → fr < 9 → 0 ≤ fc → fc < 9 → boardWF s.board →
      ∃ cell, boardGet s.board fr fc = Except.ok cell ∧
        move_piece s fr fc tr tc =
          (match cell with
           | none => (Except.ok false, s)
           | some p =>
              if p.position = s.current_player_position then
                (Except.error PyErr.AttributeError, s)
              else (Except.ok false, s))) := by
  constructor
  · unfold move_piece
    cases hg : boardGet s.board fr fc with
    | error e => simp
    | ok cell =>
      cases cell with
      | none => simp
      | some piece =>
        by_cases hp : piece.position ≠ s.current_player_position
        · simp [hp]
        · simp [hp, is_valid_move]
  · intro h0 h1 h2 h3 hwf
    obtain ⟨cell, hc⟩ := boardGet_ok_of_wf s.board fr fc hwf h0 h1 h2 h3
    refine ⟨cell, hc, ?_⟩
    unfold move_piece
    rw [hc]
    cases cell with
    | none => rfl
    | some piece =>
      by_cases hp : piece.position = s.current_player_position
      · simp only [if_pos hp, if_neg (not_not_intro hp), is_valid_move]
      · simp only [if_pos hp, if_neg hp]

/-- Witness for claim C3: on a state with a bottom Lance at (0,4) and
bottom to move, move_piece raises AttributeError with no state change. -/
theorem c3_witness :
    move_piece gs2 0 4 1 4 = (Except.error PyErr.AttributeError, gs2) := by
  obtain ⟨cell, hc, he⟩ :=
    (c3_move_piece_never_true gs2 0 4 1 4).2 (by decide) (by decide)
      (by decide) (by decide) (by decide)
  have h2 : boardGet gs2.board 0 4 = Except.ok (some lance04) := rfl
  have hcell : cell = some lance04 := (Except.ok.inj (h2.symm.trans hc)).symm
  subst hcell
  exact he.trans rfl

/-- Membership characterization of the step loop of
PloyGame.highlight_valid_moves: a cell is collected exactly when, for
some k in the remaining window, it is the k-th step from the origin
along the direction vector, all strictly earlier steps of the window
land on on-board empty cells, the cell itself is on board, and it is
empty or holds an enemy-colored piece. -/
theorem Backup.mem_validMovesFrom (board : Backup.BBoard) (pcolor : String)
    (row col : Int) (vec : Int × Int) :
    ∀ (n step : Nat) (r c : Int),
      ((r, c) ∈ Backup.validMovesFrom board pcolor row col vec step n ↔
        ∃ k : Nat, step ≤ k ∧ k < step + n ∧
          (r, c) = Backup.stepPos row col vec k ∧
          (∀ j : Nat, step ≤ j → j < k →
            Backup.inB (Backup.stepPos row col vec j).1
                (Backup.stepPos row col vec j).2 ∧
              board (Backup.stepPos row col vec j).1
                (Backup.stepPos row col vec j).2 = none) ∧
          Backup.inB r c ∧
          (board r c = none ∨
            ∃ q, board r c = some q ∧ q.color ≠ pcolor)) := by
  intro n
  induction n with
  | zero =>
    intro step r c
    constructor
    · intro h
      exact absurd h (by simp [Backup.validMovesFrom])
    · rintro ⟨k, hk1, hk2, -⟩
      omega
  | succ n ih =>
    intro step r c
    have hstep : Backup.stepPos row col vec step =
        (row + (step : Int) * vec.2, col + (step : Int) * vec.1) := rfl
    simp only [Backup.validMovesFrom]
    by_cases hb : Backup.inB (row + (step : Int) * vec.2)
        (col + (step : Int) * vec.1)
    · rw [if_pos hb]
      cases hcell : board (row + (step : Int) * vec.2)
          (col + (step : Int) * vec.1) with
      | some q =>
        dsimp only
        by_cases hq : q.color ≠ pcolor
        · rw [if_pos hq]
          constructor
          · intro hmem
            have heq := List.mem_singleton.mp hmem
            have hr : r = row + (step : Int) * vec.2 :=
              congrArg Prod.fst heq
            have hc2 : c = col + (step : Int) * vec.1 :=
              congrArg Prod.snd heq
            subst hr; subst hc2
            exact ⟨step, le_refl step, by omega, hstep.symm,
              fun j hj1 hj2 => absurd hj2 (by omega), hb,
              Or.inr ⟨q, hcell, hq⟩⟩
          · rintro ⟨k, hk1, hk2, heq, hall, hin, hcap⟩
            rcases Nat.lt_or_ge step k with hlt | hge
            · have hnone := (hall step (le_refl step) hlt).2
              rw [hstep] at hnone
              dsimp only at hnone
              rw [hcell] at hnone
              simp at hnone
            · have hks : k = step := by omega
              subst hks
              rw [hstep] at heq
              exact List.mem_singleton.mpr heq
        · rw [if_neg hq]
          constructor
          · intro h
            exact absurd h (List.not_mem_nil _)
          · rintro ⟨k, hk1, hk2, heq, hall, hin, hcap⟩
            rcases Nat.lt_or_ge step k with hlt | hge
            · have hnone := (hall step (le_refl step) hlt).2
              rw [hstep] at hnone
              dsimp only at hnone
              rw [hcell] at hnone
              simp at hnone
            · have hks : k = step := by omega
              subst hks
              rw [hstep] at heq
              have hr := congrArg Prod.fst heq
              have hc2 := congrArg Prod.snd heq
              dsimp only at hr hc2
              subst hr; subst hc2
              rcases hcap with hnone | ⟨q1, hq1, hcol⟩
              · rw [hcell] at hnone
                simp at hnone
              · rw [hcell] at hq1
                have hqq : q1 = q := Option.some.inj hq1.symm
                subst hqq
                exact absurd hcol hq
      | none =>
        dsimp only
        constructor
        · intro hmem
          rcases List.mem_cons.mp hmem with heq | hmem2
          · have hr : r = row + (step : Int) * vec.2 :=
              congrArg Prod.fst heq
            have hc2 : c = col + (step : Int) * vec.1 :=
              congrArg Prod.snd heq
            subst hr; subst hc2
            exact ⟨step, le_refl step, by omega, hstep.symm,
              fun j hj1 hj2 => absurd hj2 (by omega), hb, Or.inl hcell⟩
          · obtain ⟨k, hk1, hk2, heq, hall, hin, hcap⟩ :=
              (ih (step + 1) r c).mp hmem2
            refine ⟨k, by omega, by omega, heq, ?_, hin, hcap⟩
            intro j hj1 hj2
            rcases Nat.eq_or_lt_of_le hj1 with hjs | hjs
            · subst hjs
              rw [hstep]
              exact ⟨hb, hcell⟩
            · exact hall j (by omega) hj2
        · rintro ⟨k, hk1, hk2, heq, hall, hin, hcap⟩
          rcases Nat.eq_or_lt_of_le hk1 with hks | hks
          · apply List.mem_cons.mpr
            left
            rw [heq, ← hks, hstep]
          · apply List.mem_cons.mpr
            right
            apply (ih (step + 1) r c).mpr
            exact ⟨k, by omega, by omega, heq,
              fun j hj1 hj2 => hall j (by omega) hj2, hin, hcap⟩
    · rw [if_neg hb]
      constructor
      · intro h
        exact absurd h (List.not_mem_nil _)
      · rintro ⟨k, hk1, hk2, heq, hall, hin, hcap⟩
        rcases Nat.eq_or_lt_of_le hk1 with hks | hks
        · rw [← hks, hstep] at heq
          have hr : r = row + (step : Int) * vec.2 :=
            congrArg Prod.fst heq
          have hc2 : c = col + (step : Int) * vec.1 :=
            congrArg Prod.snd heq
          subst hr; subst hc2
          exact absurd hin hb
        · have hfirst := (hall step (le_refl step) hks).1
          rw [hstep] at hfirst
          exact absurd hfirst hb

/-- Claim C6: for every board and piece, the legal destinations of
PloyGame.highlight_valid_moves are exactly those given by walking at most
reach-of-type steps (Commander 1, Shield 1, Probe 2, Lance 3) along the
unit vector of the piece's orientation: all earlier cells of the walk on
board and empty, the destination on board (walking stops at the first
off-board cell), and the destination empty or occupied by a piece of a
different color (capture-then-stop: no cell beyond the first occupied
cell is ever returned). -/
theorem c6_valid_moves_walk (board : Backup.BBoard) (p : Backup.BPiece)
    (r c : Int) :
    ((r, c) ∈ Backup.highlight_valid_moves board p ↔
      ∃ k : Nat, 1 ≤ k ∧ k ≤ Backup.PIECE_TYPES p.type ∧
        (r, c) = Backup.stepPos p.row p.col
          (Backup.DIRECTION_VECTORS p.orientation) k ∧
        (∀ j : Nat, 1 ≤ j → j < k →
          Backup.inB
              (Backup.stepPos p.row p.col
                (Backup.DIRECTION_VECTORS p.orientation) j).1
              (Backup.stepPos p.row p.col
                (Backup.DIRECTION_VECTORS p.orientation) j).2 ∧
            board
              (Backup.stepPos p.row p.col
                (Backup.DIRECTION_VECTORS p.orientation) j).1
              (Backup.stepPos p.row p.col
                (Backup.DIRECTION_VECTORS p.orientation) j).2 = none) ∧
        Backup.inB r c ∧
        (board r c = none ∨
          ∃ q, board r c = some q ∧ q.color ≠ p.color)) := by
  have h := Backup.mem_validMovesFrom board p.color p.row p.col
    (Backup.DIRECTION_VECTORS p.orientation) (Backup.PIECE_TYPES p.type) 1 r c
  unfold Backup.highlight_valid_moves
  rw [h]
  constructor
  · rintro ⟨k, h1, h2, rest⟩
    exact ⟨k, h1, by omega, rest⟩
  · rintro ⟨k, h1, h2, rest⟩
    exact ⟨k, h1, by omega, rest⟩

/-- Witness for claim C6: the spec's own Lance example: a Lance at (0,0)
facing S on an empty board reaches (1,0). -/
theorem c6_witness :
    (1, 0) ∈ Backup.highlight_valid_moves Backup.emptyBB lanceS00 := by
  apply (c6_valid_moves_walk Backup.emptyBB lanceS00 1 0).mpr
  refine ⟨1, le_refl 1, by decide, by decide, ?_, by decide, Or.inl rfl⟩
  intro j hj1 hj2
  omega

/-- move_piece reads only the board and the active seat from the state:
its outcome component is unchanged when every other field varies. -/
theorem move_piece_fst_congr (b : List (List (Option Piece)))
    (la la2 : Option String) (ib ib2 : Bool) (gm gm2 : String)
    (ps ps2 : Players) (cp : Position) (fr fc tr tc : Int) :
    (move_piece ⟨b, la, ib, gm, ps, cp⟩ fr fc tr tc).1 =
      (move_piece ⟨b, la2, ib2, gm2, ps2, cp⟩ fr fc tr tc).1 := by
  simp only [move_piece]
  cases hg : boardGet b fr fc with
  | error e => rfl
  | ok cell =>
    cases cell with
    | none => rfl
    | some piece =>
      by_cases hp : piece.position ≠ cp
      · simp [hp]
      · simp [hp, is_valid_move]

/-- Claim C9 (amended): the code enforces no turn-action exclusivity:
move_piece never consults last_action (its success or failure is the
same whatever last_action holds), and the legacy engine keeps no
last-action state at all: the destinations of a piece just rotated by
wheelEvent are the ordinary walk along its new orientation, for Shields
and non-Shields alike. -/
theorem c9_no_action_exclusivity :
    (∀ (s : GameState) (a : Option String) (fr fc tr tc : Int),
        (move_piece { s with last_action := a } fr fc tr tc).1 =
          (move_piece s fr fc tr tc).1) ∧
    (∀ (board : Backup.BBoard) (p : Backup.BPiece) (delta : Int),
        Backup.highlight_valid_moves board (Backup.wheelEvent p delta) =
          Backup.validMovesFrom board p.color p.row p.col
            (Backup.DIRECTION_VECTORS (Backup.wheelRotate p.orientation delta))
            1 (Backup.PIECE_TYPES p.type)) := by
  constructor
  · intro s a fr fc tr tc
    exact move_piece_fst_congr s.board a s.last_action s.is_bottom_on_top
      s.is_bottom_on_top s.game_mode s.game_mode s.players s.players
      s.current_player_position fr fc tr tc
  · intro board p delta
    rfl

/-- Claim C10 (code bug): evaluation at the failing input: a capture
attempt by the active seat (bottom Probe at (4,4) onto the enemy Lance
at (5,4)) raises AttributeError at the undefined self.is_valid_move with
the state unchanged: no piece moves, nothing is appended to the capture
list, and the call never returns True. -/
theorem c10_move_success_unreachable :
    move_piece gs3 4 4 5 4 = (Except.error PyErr.AttributeError, gs3) ∧
    (move_piece gs3 4 4 5 4).2.players.bottom.captured_pieces = [] ∧
    boardGet gs3.board 5 4 = Except.ok (some lanceTop54) ∧
    (move_piece gs3 4 4 5 4).1 ≠ Except.ok true :=
  ⟨rfl, rfl, rfl, fun h => Except.noConfusion h⟩

end Ploy
